import Mathlib

/-!
# Shallow embedding of the `accounts` authentication core of ims.xp

This file embeds, as executable Lean definitions, the parts of the Django
application that the specification's claims are about:

* `accounts/models.py`: the `OTP`, `LoginHistory`, `UserProfile` and
  `SecuritySettings` records (relational rows become Lean structures; the
  database becomes explicit lists of rows; `timezone.now()` becomes an
  explicit `now : Nat` parameter measured in minutes).
* `accounts/utils.py`: `verify_otp`, `get_security_settings`,
  `check_login_attempts`.
* `accounts/views.py`: `login_view`, `verify_pin_view`, `reset_pin_view`,
  `validate_pin`, `log_login_attempt`.
* `accounts/forms.py`: the validation in `ResetPINForm.clean` and
  `SecuritySettingsForm.clean`.

Conventions: Django's `Model.objects.filter(...)` becomes `List.filter`;
`.latest('created_at')` becomes a fold selecting a row of maximal
`created_at`; saving a mutated row becomes a `List.map` that rewrites the
row with the matching primary key; an uncaught ORM exception
(`DoesNotExist`, `MultipleObjectsReturned`) becomes an explicit error
constructor of the result type.
-/

namespace IMS

/-- The `otp_type` choices of `OTP.OTP_TYPES` in `accounts/models.py`. -/
inductive OtpType
  | pin_reset
  | email_verification
  | login
  deriving DecidableEq, Repr

/-- A row of the `OTP` table (`accounts/models.py`).  `id` is the primary
key, `createdAt`/`expiresAt` are minutes on an absolute clock. -/
structure OTPRecord where
  id : Nat
  userId : Nat
  otpType : OtpType
  code : String
  createdAt : Nat
  expiresAt : Nat
  isUsed : Bool
  deriving DecidableEq, Repr

/-- `OTP.is_valid` (`accounts/models.py` lines 123-124):
`not self.is_used and timezone.now() < self.expires_at`. -/
def OTPRecord.is_valid (o : OTPRecord) (now : Nat) : Bool :=
  !o.isUsed && decide (now < o.expiresAt)

/-- A row of the `LoginHistory` table (`accounts/models.py`).  `userId` is
an `Option` because the foreign key is set to `None` for unknown
identities (`login_view` logs "User not found" with `user=None`). -/
structure LoginHistoryEntry where
  userId : Option Nat
  loginTime : Nat
  ipAddress : String
  success : Bool
  failureReason : Option String
  deriving DecidableEq, Repr

/-- A row of Django's `auth_user` table, restricted to the fields the
authentication flow reads.  The salted-hash password check of
`authenticate` is modelled as equality of the stored and submitted
secrets. -/
structure UserRec where
  id : Nat
  email : String
  password : String
  isActive : Bool
  deriving DecidableEq, Repr

/-- A row of the `UserProfile` table, restricted to the fields the
authentication flow reads.  `pin` is `none` for a SQL `NULL` and
`some ""` for an empty string; both are falsy in the Python guard
`if profile.pin:`. -/
structure Profile where
  userId : Nat
  pin : Option String
  lastLoginIp : Option String
  deriving DecidableEq, Repr

/-- Python truthiness of `profile.pin` (`CharField` with `null=True`):
truthy exactly when it is a non-empty string. -/
def pinTruthy : Option String → Bool
  | none => false
  | some s => decide (s ≠ "")

/-- A row of the `SecuritySettings` table (`accounts/models.py`). -/
structure SecuritySettingsRec where
  userId : Nat
  twoFactorEnabled : Bool
  loginNotifications : Bool
  sessionTimeout : Int
  maxLoginAttempts : Nat
  deriving DecidableEq, Repr

/-- The column defaults of `SecuritySettings`: `two_factor_enabled=False`,
`login_notifications=True`, `session_timeout=30`, `max_login_attempts=5`. -/
def defaultSecuritySettings (userId : Nat) : SecuritySettingsRec :=
  { userId := userId, twoFactorEnabled := false, loginNotifications := true,
    sessionTimeout := 30, maxLoginAttempts := 5 }

/-- `get_security_settings` (`accounts/utils.py` lines 95-100):
`SecuritySettings.objects.get_or_create(user=user)`.  The row created on a
miss carries the column defaults; the value returned to the caller is the
same either way, so the store write is not modelled. -/
def get_security_settings (settings : List SecuritySettingsRec) (userId : Nat) :
    SecuritySettingsRec :=
  match settings.find? (fun s => decide (s.userId = userId)) with
  | some s => s
  | none => defaultSecuritySettings userId

/-! ## OTP ledger operations (`accounts/utils.py`) -/

/-- The queryset `OTP.objects.filter(user=user, otp_type=otp_type,
is_used=False)` inside `verify_otp`. -/
def otpCandidates (ledger : List OTPRecord) (userId : Nat) (ty : OtpType) :
    List OTPRecord :=
  ledger.filter (fun o => decide (o.userId = userId ∧ o.otpType = ty ∧ o.isUsed = false))

/-- `.latest('created_at')`: a row of maximal `created_at`, `none` on an
empty queryset (Django raises `DoesNotExist` there; `verify_otp` catches
it). -/
def latestByCreatedAt : List OTPRecord → Option OTPRecord
  | [] => none
  | o :: rest =>
    match latestByCreatedAt rest with
    | none => some o
    | some a => if a.createdAt ≤ o.createdAt then some o else some a

/-- `otp.is_used = True; otp.save()`: rewrite the row with primary key `i`. -/
def markUsed (ledger : List OTPRecord) (i : Nat) : List OTPRecord :=
  ledger.map (fun o => if o.id = i then { o with isUsed := true } else o)

/-- `verify_otp` (`accounts/utils.py` lines 33-52).  Returns the boolean
result together with the ledger after the call (unchanged on every failure
path). -/
def verify_otp (ledger : List OTPRecord) (now : Nat) (userId : Nat) (code : String)
    (ty : OtpType) : Bool × List OTPRecord :=
  match latestByCreatedAt (otpCandidates ledger userId ty) with
  | none => (false, ledger)
  | some otp =>
      if otp.code = code ∧ otp.isUsed = false ∧ now < otp.expiresAt then
        (true, markUsed ledger otp.id)
      else
        (false, ledger)

/-! ## Login-attempt journal (`accounts/utils.py`, `accounts/views.py`) -/

/-- The count inside `check_login_attempts` (`accounts/utils.py` lines
111-117): failed `LoginHistory` rows of this user with
`login_time >= now - 30 minutes`. -/
def countRecentFailures (hist : List LoginHistoryEntry) (now : Nat) (userId : Nat) :
    Nat :=
  (hist.filter (fun e =>
    decide (e.userId = some userId ∧ e.success = false ∧ now - 30 ≤ e.loginTime))).length

/-- `check_login_attempts` (`accounts/utils.py` lines 102-119):
`failed_attempts >= security_settings.max_login_attempts`. -/
def check_login_attempts (settings : List SecuritySettingsRec)
    (hist : List LoginHistoryEntry) (now : Nat) (userId : Nat) : Bool :=
  decide ((get_security_settings settings userId).maxLoginAttempts
            ≤ countRecentFailures hist now userId)

/-- `log_login_attempt` (`accounts/views.py` lines 32-40):
`LoginHistory.objects.create(...)` with `login_time = now`
(`auto_now_add`). -/
def log_login_attempt (hist : List LoginHistoryEntry) (userId : Option Nat)
    (now : Nat) (ip : String) (success : Bool) (failureReason : Option String) :
    List LoginHistoryEntry :=
  { userId := userId, loginTime := now, ipAddress := ip, success := success,
    failureReason := failureReason } :: hist

/-! ## Login and step-up flow (`accounts/views.py`) -/

/-- The web-session state the login flow manipulates: nothing, the
pending-PIN marker (`request.session['pending_auth']` plus
`request.session['pending_user_id']`), or an established session
(`django.contrib.auth.login`). -/
inductive SessionState
  | anonymous
  | pendingPin (userId : Nat)
  | authenticated (userId : Nat)
  deriving DecidableEq, Repr

/-- The persistent and session state read and written by `login_view` and
`verify_pin_view`. -/
structure AuthState where
  users : List UserRec
  profiles : List Profile
  settings : List SecuritySettingsRec
  history : List LoginHistoryEntry
  session : SessionState
  deriving DecidableEq, Repr

/-- The outcomes of one `login_view` POST.  `profileError` is the uncaught
`UserProfile.DoesNotExist` raised at `accounts/views.py` line 135 when a
user has no profile row (the earlier lookup at line 120 catches the same
exception and falls through to the plain-login path). -/
inductive LoginOutcome
  | invalidCredentials
  | accountInactive
  | tooManyAttempts
  | awaitingStepUp
  | authenticated
  | profileError
  deriving DecidableEq, Repr

/-- `django.contrib.auth.authenticate(username=email, password=password)`:
the user whose identity and secret both match, else `None`. -/
def authenticate (users : List UserRec) (email password : String) : Option UserRec :=
  users.find? (fun u => decide (u.email = email ∧ u.password = password))

/-- `UserProfile.objects.get(user=user)` as an `Option`. -/
def findProfile (profiles : List Profile) (userId : Nat) : Option Profile :=
  profiles.find? (fun p => decide (p.userId = userId))

/-- `profile.last_login_ip = ip_address; profile.save()`
(`accounts/views.py` lines 135-137). -/
def setLastLoginIp (profiles : List Profile) (userId : Nat) (ip : String) :
    List Profile :=
  profiles.map (fun p => if p.userId = userId then { p with lastLoginIp := some ip } else p)

/-- The POST branch of `login_view` (`accounts/views.py` lines 94-151),
from `authenticate` onward, for a submission that passed form validation. -/
def login_view (st : AuthState) (now : Nat) (email password ip : String) :
    LoginOutcome × AuthState :=
  match authenticate st.users email password with
  | some user =>
      if user.isActive = false then
        (LoginOutcome.accountInactive,
         { st with history := log_login_attempt st.history (some user.id) now ip
                     false (some "Account inactive") })
      else if check_login_attempts st.settings st.history now user.id then
        (LoginOutcome.tooManyAttempts,
         { st with history := log_login_attempt st.history (some user.id) now ip
                     false (some "Too many failed attempts") })
      else
        match findProfile st.profiles user.id with
        | some profile =>
            if pinTruthy profile.pin then
              (LoginOutcome.awaitingStepUp,
               { st with
                   history := log_login_attempt st.history (some user.id) now ip true none,
                   session := SessionState.pendingPin user.id })
            else
              (LoginOutcome.authenticated,
               { st with
                   history := log_login_attempt st.history (some user.id) now ip true none,
                   session := SessionState.authenticated user.id,
                   profiles := setLastLoginIp st.profiles user.id ip })
        | none =>
            (LoginOutcome.profileError,
             { st with
                 history := log_login_attempt st.history (some user.id) now ip true none,
                 session := SessionState.authenticated user.id })
  | none =>
      match st.users.find? (fun u => decide (u.email = email)) with
      | some u =>
          (LoginOutcome.invalidCredentials,
           { st with history := log_login_attempt st.history (some u.id) now ip
                       false (some "Invalid password") })
      | none =>
          (LoginOutcome.invalidCredentials,
           { st with history := log_login_attempt st.history none now ip
                       false (some "User not found") })

/-- The outcomes of one `verify_pin_view` POST. -/
inductive PinOutcome
  | redirectLogin
  | authenticated
  | invalidPin
  deriving DecidableEq, Repr

/-- `validate_pin` (`accounts/views.py` lines 42-48): `profile.pin == pin`,
`False` when the profile row is missing.  A `NULL` pin never equals a
submitted string; an empty-string pin equals the empty submission. -/
def validate_pin (profiles : List Profile) (userId : Nat) (pin : String) : Bool :=
  match findProfile profiles userId with
  | some profile => decide (profile.pin = some pin)
  | none => false

/-- The POST branch of `verify_pin_view` (`accounts/views.py` lines
157-186), guarded by the pending-authentication marker. -/
def verify_pin_view (st : AuthState) (now : Nat) (pin ip : String) :
    PinOutcome × AuthState :=
  match st.session with
  | SessionState.pendingPin userId =>
      if validate_pin st.profiles userId pin then
        (PinOutcome.authenticated,
         { st with
             history := log_login_attempt st.history (some userId) now ip true none,
             session := SessionState.authenticated userId })
      else
        (PinOutcome.invalidPin,
         { st with history := log_login_attempt st.history (some userId) now ip
                     false (some "Invalid PIN") })
  | _ => (PinOutcome.redirectLogin, st)

/-! ## PIN reset flow (`accounts/forms.py` `ResetPINForm`,
`accounts/views.py` `reset_pin_view`) -/

/-- The outcomes of one `reset_pin_view` POST.  `multipleOtpError` is the
uncaught `MultipleObjectsReturned` of `OTP.objects.get`; `profileMissing`
is the uncaught `UserProfile.DoesNotExist` of `accounts/views.py` line
294, raised after `otp.save()` has already committed. -/
inductive ResetOutcome
  | formError
  | multipleOtpError
  | profileMissing
  | success
  deriving DecidableEq, Repr

/-- The `RegexValidator('^[0-9]{4,6}$')` plus length bounds on
`ResetPINForm.new_pin`. -/
def pinFormatOk (s : String) : Bool :=
  decide (4 ≤ s.length) && decide (s.length ≤ 6) && s.toList.all Char.isDigit

/-- The queryset behind `OTP.objects.get(user=user, code=otp_code,
otp_type='pin_reset', is_used=False)` used both by `ResetPINForm.clean`
and by `reset_pin_view`. -/
def resetOtpMatches (ledger : List OTPRecord) (userId : Nat) (code : String) :
    List OTPRecord :=
  ledger.filter (fun o =>
    decide (o.userId = userId ∧ o.code = code ∧ o.otpType = OtpType.pin_reset
              ∧ o.isUsed = false))

/-- `profile.pin = new_pin; profile.save()` (`accounts/views.py` lines
294-296). -/
def setPin (profiles : List Profile) (userId : Nat) (newPin : String) : List Profile :=
  profiles.map (fun p => if p.userId = userId then { p with pin := some newPin } else p)

/-- The POST branch of `reset_pin_view` (`accounts/views.py` lines
266-306) together with the `ResetPINForm` validation it runs first
(`accounts/forms.py` lines 240-262).  The returned ledger and profile
table reflect the rows committed when the request finishes: `otp.save()`
and `profile.save()` are two separate autocommitted writes with no
enclosing transaction, so on the `profileMissing` path the OTP row is
already marked used while the PIN is untouched. -/
def reset_pin_view (ledger : List OTPRecord) (profiles : List Profile) (now : Nat)
    (userId : Nat) (otpCode newPin confirmPin : String) :
    ResetOutcome × List OTPRecord × List Profile :=
  if pinFormatOk newPin = false ∨ newPin ≠ confirmPin then
    (ResetOutcome.formError, ledger, profiles)
  else
    match resetOtpMatches ledger userId otpCode with
    | [] => (ResetOutcome.formError, ledger, profiles)
    | [otp] =>
        if otp.is_valid now = false then
          (ResetOutcome.formError, ledger, profiles)
        else
          let ledger' := markUsed ledger otp.id
          match findProfile profiles userId with
          | some _ => (ResetOutcome.success, ledger', setPin profiles userId newPin)
          | none => (ResetOutcome.profileMissing, ledger', profiles)
    | _ :: _ :: _ => (ResetOutcome.multipleOtpError, ledger, profiles)

/-! ## Security-settings validation (`accounts/forms.py`
`SecuritySettingsForm`, `accounts/views.py` `security_settings_view`) -/

/-- One POST of the security-settings form. -/
structure SecuritySettingsSubmission where
  twoFactorEnabled : Bool
  loginNotifications : Bool
  sessionTimeout : Int
  maxLoginAttempts : Nat
  deriving DecidableEq, Repr

/-- `SecuritySettingsForm.is_valid()`: `clean_session_timeout` (5-1440),
`clean_max_login_attempts` (1-10), and `clean` (two-factor requires a
session timeout of at least 15 minutes), `accounts/forms.py` lines
356-378. -/
def securitySettingsFormValid (s : SecuritySettingsSubmission) : Bool :=
  decide (5 ≤ s.sessionTimeout ∧ s.sessionTimeout ≤ 1440)
    && decide (1 ≤ s.maxLoginAttempts ∧ s.maxLoginAttempts ≤ 10)
    && !(s.twoFactorEnabled && decide (s.sessionTimeout < 15))

/-- The POST branch of `security_settings_view` (`accounts/views.py` lines
351-357): `form.save()` only when `form.is_valid()`, otherwise the stored
row is untouched. -/
def security_settings_view (current : SecuritySettingsRec)
    (s : SecuritySettingsSubmission) : SecuritySettingsRec :=
  if securitySettingsFormValid s then
    { current with
        twoFactorEnabled := s.twoFactorEnabled,
        loginNotifications := s.loginNotifications,
        sessionTimeout := s.sessionTimeout,
        maxLoginAttempts := s.maxLoginAttempts }
  else current

/-- The spec's §3 invariant on a stored policy row: if two-factor is
enabled, the session timeout is at least 15 minutes. -/
def policyInvariant (s : SecuritySettingsRec) : Prop :=
  s.twoFactorEnabled = true → 15 ≤ s.sessionTimeout

/-! ## Concrete fixtures used by witnesses and counterexamples -/

/-- An active account with the correct password `"pw"`. -/
def demoUser : UserRec := { id := 1, email := "u", password := "pw", isActive := true }

/-- A profile with no PIN set (step-up skipped). -/
def demoProfileNoPin : Profile := { userId := 1, pin := none, lastLoginIp := none }

/-- A profile with the step-up PIN `"1234"`. -/
def demoProfilePin : Profile := { userId := 1, pin := some "1234", lastLoginIp := none }

/-- A failed journal entry for `demoUser` at minute `t`. -/
def failureAt (t : Nat) : LoginHistoryEntry :=
  { userId := some 1, loginTime := t, ipAddress := "7.7.7.7", success := false,
    failureReason := some "Invalid password" }

/-- A state holding `demoUser`, the given profile table and journal, the
default security settings, and no session. -/
def baseState (history : List LoginHistoryEntry) (profiles : List Profile) : AuthState :=
  { users := [demoUser], profiles := profiles, settings := [], history := history,
    session := SessionState.anonymous }

/-- A `pin_reset` OTP row for `demoUser`. -/
def otpRec (i : Nat) (code : String) (created expires : Nat) (used : Bool) : OTPRecord :=
  { id := i, userId := 1, otpType := OtpType.pin_reset, code := code,
    createdAt := created, expiresAt := expires, isUsed := used }

/-- A stored policy row for `demoUser` with the strictest permitted
lockout threshold, `max_login_attempts = 1`. -/
def strictSettings : SecuritySettingsRec :=
  { userId := 1, twoFactorEnabled := false, loginNotifications := true,
    sessionTimeout := 30, maxLoginAttempts := 1 }

/-- A state in which `demoUser` is locked out at minute 10 under
`strictSettings` (one failure at minute 0 inside the window). -/
def lockState : AuthState :=
  { users := [demoUser], profiles := [demoProfileNoPin], settings := [strictSettings],
    history := [failureAt 0], session := SessionState.anonymous }

/-! ## Helper lemmas -/

theorem latestByCreatedAt_mem : ∀ {l : List OTPRecord} {o : OTPRecord},
    latestByCreatedAt l = some o → o ∈ l := by
  intro l
  induction l with
  | nil => intro o h; simp [latestByCreatedAt] at h
  | cons a rest ih =>
      intro o h
      simp only [latestByCreatedAt] at h
      cases hrec : latestByCreatedAt rest with
      | none =>
          rw [hrec] at h
          simp only [Option.some.injEq] at h
          exact h ▸ List.mem_cons_self a rest
      | some b =>
          rw [hrec] at h
          dsimp only at h
          by_cases hle : b.createdAt ≤ a.createdAt
          · rw [if_pos hle] at h
            simp only [Option.some.injEq] at h
            exact h ▸ List.mem_cons_self a rest
          · rw [if_neg hle] at h
            simp only [Option.some.injEq] at h
            exact h ▸ List.mem_cons_of_mem a (ih hrec)

theorem mem_otpCandidates {ledger : List OTPRecord} {uid : Nat} {ty : OtpType}
    {o : OTPRecord} (h : o ∈ otpCandidates ledger uid ty) :
    o ∈ ledger ∧ o.userId = uid ∧ o.otpType = ty ∧ o.isUsed = false := by
  have h' := List.mem_filter.mp h
  exact ⟨h'.1, of_decide_eq_true h'.2⟩

theorem markUsed_mem_of_used {l : List OTPRecord} {r : OTPRecord} (hr : r ∈ l)
    (hu : r.isUsed = true) (i : Nat) : r ∈ markUsed l i := by
  unfold markUsed
  have hfix : (fun o => if o.id = i then { o with isUsed := true } else o) r = r := by
    by_cases h : r.id = i
    · cases r
      simp only at hu
      subst hu
      simp [h]
    · simp [h]
  exact hfix ▸ List.mem_map_of_mem _ hr

theorem findProfile_setLastLoginIp (ps : List Profile) (uid : Nat) (ip : String) :
    findProfile (setLastLoginIp ps uid ip) uid =
      (findProfile ps uid).map (fun p => { p with lastLoginIp := some ip }) := by
  induction ps with
  | nil => rfl
  | cons a rest ih =>
      by_cases h : a.userId = uid
      · simp [findProfile, setLastLoginIp, List.find?_cons, h]
      · simp only [findProfile, setLastLoginIp, List.map_cons] at *
        rw [if_neg h]
        rw [List.find?_cons_of_neg _ (by simp [h]), List.find?_cons_of_neg _ (by simp [h])]
        exact ih

/-! ## Claim theorems -/

/-- C1 (counterexample): with `max_login_attempts = 5` (the stored
default) and exactly four failed attempts in the trailing 30-minute
window, the fifth attempt with the correct password does NOT return
`TooManyAttempts` as the claim states: `check_login_attempts` compares
`failed_attempts >= max_login_attempts` and `4 >= 5` is false, so the
attempt succeeds. -/
theorem claim_C1_counterexample :
    (login_view (baseState (List.replicate 4 (failureAt 0)) [demoProfileNoPin])
        5 "u" "pw" "ip").1 = LoginOutcome.authenticated
    ∧ LoginOutcome.authenticated ≠ LoginOutcome.tooManyAttempts := by
  constructor
  · decide
  · decide

/-- C1 (amended): with `max_login_attempts = 5` and exactly FIVE failed
attempts recorded within the last 30 minutes, a further login attempt
with the correct password returns `TooManyAttempts`; an attempt made 31
minutes after the failures (with no intervening failures other than the
lockout rejection itself) succeeds. -/
theorem claim_C1_amended :
    (login_view (baseState (List.replicate 5 (failureAt 0)) [demoProfileNoPin])
        5 "u" "pw" "ip").1 = LoginOutcome.tooManyAttempts
    ∧ (login_view
        (login_view (baseState (List.replicate 5 (failureAt 0)) [demoProfileNoPin])
          5 "u" "pw" "ip").2
        31 "u" "pw" "ip").1 = LoginOutcome.authenticated := by
  constructor
  · decide
  · decide

/-- C3 (code bug): in `reset_pin_view` the overwrite of the PIN and the
marking of the OTP as used are two separate autocommitted writes with no
enclosing transaction.  When the `UserProfile` lookup at
`accounts/views.py` line 294 raises (profile row absent) the request
dies AFTER `otp.save()` has committed: the OTP is marked used while no
PIN was written — refuting both-or-neither atomicity. -/
theorem claim_C3_nonatomic :
    reset_pin_view [otpRec 7 "654321" 0 10 false] [] 5 1 "654321" "4321" "4321"
      = (ResetOutcome.profileMissing, [otpRec 7 "654321" 0 10 true], []) := by
  decide

/-- C4 (counterexample): the PIN-reset redemption path does not consult
only the most-recently-created unused record.  With an older unused
unexpired record `111111` (id 1) and a newer unused record `222222`
(id 2, the latest by creation time), supplying `111111` to
`reset_pin_view` succeeds and mutates the older record, although the
claim demands failure without mutation. -/
theorem claim_C4_counterexample :
    (reset_pin_view [otpRec 1 "111111" 0 40 false, otpRec 2 "222222" 5 45 false]
        [demoProfilePin] 6 1 "111111" "5555" "5555").1 = ResetOutcome.success
    ∧ (reset_pin_view [otpRec 1 "111111" 0 40 false, otpRec 2 "222222" 5 45 false]
        [demoProfilePin] 6 1 "111111" "5555" "5555").2.1
        ≠ [otpRec 1 "111111" 0 40 false, otpRec 2 "222222" 5 45 false]
    ∧ latestByCreatedAt (otpCandidates
        [otpRec 1 "111111" 0 40 false, otpRec 2 "222222" 5 45 false] 1 OtpType.pin_reset)
        = some (otpRec 2 "222222" 5 45 false) := by
  refine ⟨by decide, by decide, by decide⟩

/-- C5 (counterexample): with two unused `pin_reset` records carrying the
same code `333333`, redeeming the code marks the newer record (id 2,
the latest) used, yet a second redemption attempt with the identical
code before expiry SUCCEEDS again (it now selects the older unused
record) — the claim demands idempotent failure on replay. -/
theorem claim_C5_counterexample :
    (verify_otp [otpRec 1 "333333" 0 100 false, otpRec 2 "333333" 5 100 false]
        6 1 "333333" OtpType.pin_reset)
      = (true, [otpRec 1 "333333" 0 100 false, otpRec 2 "333333" 5 100 true])
    ∧ (verify_otp [otpRec 1 "333333" 0 100 false, otpRec 2 "333333" 5 100 true]
        7 1 "333333" OtpType.pin_reset).1 = true
    ∧ 7 < 100 := by
  refine ⟨by decide, by decide, by decide⟩

/-- C10 (counterexample): a locked-out account does NOT stay locked while
attempts keep arriving less than 30 minutes apart.  Five failures at
minute 0 lock the account; the rejected attempt at minute 10 journals
one more failure; the next attempt at minute 35 — only 25 minutes later
— finds a single failure in its window (1 < 5) and succeeds. -/
theorem claim_C10_counterexample :
    (login_view (baseState (List.replicate 5 (failureAt 0)) [demoProfileNoPin])
        10 "u" "pw" "ip").1 = LoginOutcome.tooManyAttempts
    ∧ (login_view
        (login_view (baseState (List.replicate 5 (failureAt 0)) [demoProfileNoPin])
          10 "u" "pw" "ip").2
        35 "u" "pw" "ip").1 = LoginOutcome.authenticated
    ∧ 35 - 10 < 30 := by
  refine ⟨by decide, by decide, by decide⟩

/-- C2: for every credential and login attempt with the correct password
on an active account: if the count of failed journal entries for that
credential in the trailing 30-minute window reaches
`max_login_attempts`, the attempt returns `TooManyAttempts`; and once
the window contains no failures (with the threshold at its form-enforced
lower bound of at least 1), the attempt succeeds — reaching
`AwaitingStepUp` exactly when a PIN is set. -/
theorem claim_C2_lockout_window (st : AuthState) (now : Nat) (email password ip : String)
    (user : UserRec) (p : Profile)
    (hauth : authenticate st.users email password = some user)
    (hactive : user.isActive = true)
    (hprof : findProfile st.profiles user.id = some p) :
    ((get_security_settings st.settings user.id).maxLoginAttempts
        ≤ countRecentFailures st.history now user.id →
      (login_view st now email password ip).1 = LoginOutcome.tooManyAttempts)
    ∧ (countRecentFailures st.history now user.id = 0 →
       1 ≤ (get_security_settings st.settings user.id).maxLoginAttempts →
       (login_view st now email password ip).1 =
         (if pinTruthy p.pin then LoginOutcome.awaitingStepUp
          else LoginOutcome.authenticated)) := by
  constructor
  · intro hle
    have hc : check_login_attempts st.settings st.history now user.id = true := by
      unfold check_login_attempts
      exact decide_eq_true hle
    unfold login_view
    rw [hauth]
    simp [hactive, hc]
  · intro hcount hmax
    have hc : check_login_attempts st.settings st.history now user.id = false := by
      unfold check_login_attempts
      rw [hcount]
      exact decide_eq_false (by omega)
    unfold login_view
    rw [hauth]
    simp only [hactive, Bool.true_eq_false, if_false, hc, if_false, hprof]
    cases hp : pinTruthy p.pin <;> simp [hp]

/-- C2 witness: the locked branch at a concrete five-failure state and
the clear-window branch at an empty journal. -/
theorem claim_C2_witness :
    (login_view (baseState (List.replicate 5 (failureAt 0)) [demoProfileNoPin])
        5 "u" "pw" "ip").1 = LoginOutcome.tooManyAttempts
    ∧ (login_view (baseState [] [demoProfileNoPin]) 5 "u" "pw" "ip").1
        = LoginOutcome.authenticated := by
  constructor
  · exact (claim_C2_lockout_window
      (baseState (List.replicate 5 (failureAt 0)) [demoProfileNoPin]) 5 "u" "pw" "ip"
      demoUser demoProfileNoPin (by decide) rfl (by decide)).1 (by decide)
  · have h := (claim_C2_lockout_window (baseState [] [demoProfileNoPin]) 5 "u" "pw" "ip"
      demoUser demoProfileNoPin (by decide) rfl (by decide)).2 (by decide) (by decide)
    simpa [demoProfileNoPin, pinTruthy] using h

/-- C4 (amended): the generic redeem operation (`verify_otp`) consults
only the most-recently-created unused record — with no unused record it
fails as not-found without mutation, and a code that does not match the
latest unused record fails without mutation even if it matches an older
unused record; the PIN-reset path, by contrast, looks the record up BY
the submitted code among all unused `pin_reset` records and succeeds on
any unique currently-valid match, regardless of recency. -/
theorem claim_C4_amended (ledger : List OTPRecord) (profiles : List Profile)
    (now uid : Nat) (code newPin : String) (ty : OtpType) :
    (otpCandidates ledger uid ty = [] →
       verify_otp ledger now uid code ty = (false, ledger))
    ∧ (∀ latest, latestByCreatedAt (otpCandidates ledger uid ty) = some latest →
        latest.code ≠ code → verify_otp ledger now uid code ty = (false, ledger))
    ∧ (∀ otp p, resetOtpMatches ledger uid code = [otp] →
        OTPRecord.is_valid otp now = true → findProfile profiles uid = some p →
        pinFormatOk newPin = true →
        reset_pin_view ledger profiles now uid code newPin newPin =
          (ResetOutcome.success, markUsed ledger otp.id, setPin profiles uid newPin)) := by
  refine ⟨?_, ?_, ?_⟩
  · intro h
    unfold verify_otp
    rw [h]
    rfl
  · intro latest h hne
    unfold verify_otp
    rw [h]
    simp [hne]
  · intro otp p hm hv hp hfmt
    unfold reset_pin_view
    simp [hm, hp, hv, hfmt]

/-- C4 witness: not-found on an empty ledger; the generic path refusing
an older-record code; the reset path accepting the same older-record
code. -/
theorem claim_C4_witness :
    verify_otp [] 5 1 "111111" OtpType.pin_reset = (false, [])
    ∧ verify_otp [otpRec 1 "111111" 0 40 false, otpRec 2 "222222" 5 45 false]
        6 1 "111111" OtpType.pin_reset
        = (false, [otpRec 1 "111111" 0 40 false, otpRec 2 "222222" 5 45 false])
    ∧ reset_pin_view [otpRec 1 "111111" 0 40 false] [demoProfilePin] 6 1 "111111"
        "5555" "5555"
        = (ResetOutcome.success, markUsed [otpRec 1 "111111" 0 40 false] 1,
           setPin [demoProfilePin] 1 "5555") := by
  refine ⟨?_, ?_, ?_⟩
  · exact (claim_C4_amended [] [] 5 1 "111111" "5555" OtpType.pin_reset).1 (by decide)
  · exact (claim_C4_amended [otpRec 1 "111111" 0 40 false, otpRec 2 "222222" 5 45 false]
      [] 6 1 "111111" "5555" OtpType.pin_reset).2.1
      (otpRec 2 "222222" 5 45 false) (by decide) (by decide)
  · exact (claim_C4_amended [otpRec 1 "111111" 0 40 false] [demoProfilePin]
      6 1 "111111" "5555" OtpType.pin_reset).2.2
      (otpRec 1 "111111" 0 40 false) demoProfilePin (by decide) (by decide) (by decide)
      (by decide)

/-- C5 (amended): a record that has been redeemed (marked used) is itself
never selected or mutated again by `verify_otp`; and a later attempt
with the identical code fails without mutation whenever no OTHER unused
record for the same credential and purpose carries that code (if one
does, the attempt redeems that other record instead — see the
counterexample). -/
theorem claim_C5_amended (ledger : List OTPRecord) (now uid : Nat) (code : String)
    (ty : OtpType) (r : OTPRecord) (hr : r ∈ ledger) (hused : r.isUsed = true) :
    r ∈ (verify_otp ledger now uid code ty).2
    ∧ ((∀ o ∈ ledger, o.userId = uid → o.otpType = ty → o.isUsed = false →
          o.code ≠ code) →
        verify_otp ledger now uid code ty = (false, ledger)) := by
  constructor
  · unfold verify_otp
    cases h : latestByCreatedAt (otpCandidates ledger uid ty) with
    | none => simpa using hr
    | some otp =>
        dsimp only
        by_cases hcond : otp.code = code ∧ otp.isUsed = false ∧ now < otp.expiresAt
        · rw [if_pos hcond]
          exact markUsed_mem_of_used hr hused otp.id
        · rw [if_neg hcond]
          exact hr
  · intro hall
    unfold verify_otp
    cases h : latestByCreatedAt (otpCandidates ledger uid ty) with
    | none => rfl
    | some otp =>
        have hmem := mem_otpCandidates (latestByCreatedAt_mem h)
        have hne : otp.code ≠ code := hall otp hmem.1 hmem.2.1 hmem.2.2.1 hmem.2.2.2
        simp [hne]

/-- C5 witness: a used record stays in the ledger untouched and a replay
of its code (no other record bearing it) fails without mutation. -/
theorem claim_C5_witness :
    otpRec 2 "888888" 5 100 true
        ∈ (verify_otp [otpRec 2 "888888" 5 100 true] 6 1 "888888" OtpType.pin_reset).2
    ∧ verify_otp [otpRec 2 "888888" 5 100 true] 6 1 "888888" OtpType.pin_reset
        = (false, [otpRec 2 "888888" 5 100 true]) := by
  have h := claim_C5_amended [otpRec 2 "888888" 5 100 true] 6 1 "888888"
    OtpType.pin_reset (otpRec 2 "888888" 5 100 true) (by decide) (by decide)
  exact ⟨h.1, h.2 (by decide)⟩

/-- C6: a record is invalid once `now >= expires_at` regardless of its
used flag (`is_valid` conjoins `now < expires_at`); redemption of the
consulted record fails whenever `now >= expires_at` — in particular at
`now = expires_at` — and succeeds before expiry when the code matches. -/
theorem claim_C6_expiry (ledger : List OTPRecord) (now uid : Nat) (code : String)
    (ty : OtpType) (o : OTPRecord)
    (h : latestByCreatedAt (otpCandidates ledger uid ty) = some o) :
    (∀ r : OTPRecord, r.expiresAt ≤ now → OTPRecord.is_valid r now = false)
    ∧ (o.expiresAt ≤ now → verify_otp ledger now uid code ty = (false, ledger))
    ∧ (now < o.expiresAt → o.code = code →
        (verify_otp ledger now uid code ty).1 = true) := by
  refine ⟨?_, ?_, ?_⟩
  · intro r hr
    unfold OTPRecord.is_valid
    have hnl : ¬ (now < r.expiresAt) := not_lt.mpr hr
    simp [hnl]
  · intro hle
    have hnl : ¬ (now < o.expiresAt) := not_lt.mpr hle
    unfold verify_otp
    rw [h]
    simp [hnl]
  · intro hlt hcode
    have hmem := mem_otpCandidates (latestByCreatedAt_mem h)
    unfold verify_otp
    rw [h]
    simp [hcode, hmem.2.2.2, hlt]

/-- C6 witness: the consulted record fails exactly at its expiry minute
and succeeds one the clock before. -/
theorem claim_C6_witness :
    verify_otp [otpRec 3 "777777" 0 10 false] 10 1 "777777" OtpType.pin_reset
      = (false, [otpRec 3 "777777" 0 10 false])
    ∧ (verify_otp [otpRec 3 "777777" 0 10 false] 5 1 "777777" OtpType.pin_reset).1
        = true := by
  constructor
  · exact (claim_C6_expiry [otpRec 3 "777777" 0 10 false] 10 1 "777777"
      OtpType.pin_reset (otpRec 3 "777777" 0 10 false) (by decide)).2.1 (by decide)
  · exact (claim_C6_expiry [otpRec 3 "777777" 0 10 false] 5 1 "777777"
      OtpType.pin_reset (otpRec 3 "777777" 0 10 false) (by decide)).2.2 (by decide)
      (by decide)

/-- C7: with a non-empty PIN on the profile, a correct-password login on
an active, non-locked account journals exactly one success entry and
returns `AwaitingStepUp` with only the pending marker set (no
established session); from any state carrying that marker, a step-up
submission whose PIN equals `Profile.pin` verbatim establishes the
session (`Authenticated`, one success entry), while any mismatch
journals a failure and leaves the pending marker in place. -/
theorem claim_C7_stepup (st : AuthState) (now : Nat) (email password ip : String)
    (user : UserRec) (p : Profile)
    (hauth : authenticate st.users email password = some user)
    (hactive : user.isActive = true)
    (hnolock : check_login_attempts st.settings st.history now user.id = false)
    (hprof : findProfile st.profiles user.id = some p)
    (hpin : pinTruthy p.pin = true) :
    login_view st now email password ip =
      (LoginOutcome.awaitingStepUp,
       { st with history := log_login_attempt st.history (some user.id) now ip true none,
                 session := SessionState.pendingPin user.id })
    ∧ ∀ (st' : AuthState) (now2 : Nat) (pin2 ip2 : String),
        st'.session = SessionState.pendingPin user.id →
        st'.profiles = st.profiles →
        ((p.pin = some pin2 →
           verify_pin_view st' now2 pin2 ip2 =
             (PinOutcome.authenticated,
              { st' with
                  history := log_login_attempt st'.history (some user.id) now2 ip2 true none,
                  session := SessionState.authenticated user.id }))
         ∧ (p.pin ≠ some pin2 →
           verify_pin_view st' now2 pin2 ip2 =
             (PinOutcome.invalidPin,
              { st' with
                  history := log_login_attempt st'.history (some user.id) now2 ip2 false
                    (some "Invalid PIN") }))) := by
  constructor
  · unfold login_view
    rw [hauth]
    simp [hactive, hnolock, hprof, hpin]
  · intro st' now2 pin2 ip2 hsess hprofiles
    constructor
    · intro heq
      have hv : validate_pin st'.profiles user.id pin2 = true := by
        unfold validate_pin
        rw [hprofiles, hprof]
        exact decide_eq_true heq
      unfold verify_pin_view
      rw [hsess]
      simp [hv]
    · intro hne
      have hv : validate_pin st'.profiles user.id pin2 = false := by
        unfold validate_pin
        rw [hprofiles, hprof]
        exact decide_eq_false hne
      unfold verify_pin_view
      rw [hsess]
      simp [hv]

/-- C7 witness: concrete run with PIN `"1234"`: password yields
`AwaitingStepUp`, the verbatim PIN authenticates, a wrong PIN does not. -/
theorem claim_C7_witness :
    (login_view (baseState [] [demoProfilePin]) 5 "u" "pw" "ip").1
      = LoginOutcome.awaitingStepUp
    ∧ (verify_pin_view (login_view (baseState [] [demoProfilePin]) 5 "u" "pw" "ip").2
        6 "1234" "ip").1 = PinOutcome.authenticated
    ∧ (verify_pin_view (login_view (baseState [] [demoProfilePin]) 5 "u" "pw" "ip").2
        6 "9999" "ip").1 = PinOutcome.invalidPin := by
  have h := claim_C7_stepup (baseState [] [demoProfilePin]) 5 "u" "pw" "ip"
    demoUser demoProfilePin (by decide) rfl (by decide) (by decide) (by decide)
  have hpend := h.2 (login_view (baseState [] [demoProfilePin]) 5 "u" "pw" "ip").2
  have hs : (login_view (baseState [] [demoProfilePin]) 5 "u" "pw" "ip").2.session
      = SessionState.pendingPin demoUser.id := by rw [h.1]
  have hp : (login_view (baseState [] [demoProfilePin]) 5 "u" "pw" "ip").2.profiles
      = (baseState [] [demoProfilePin]).profiles := by rw [h.1]
  refine ⟨by rw [h.1], ?_, ?_⟩
  · rw [(hpend 6 "1234" "ip" hs hp).1 rfl]
  · rw [(hpend 6 "9999" "ip" hs hp).2 (by decide)]

/-- C8: with an empty PIN on the profile, a correct-password login on an
active, non-locked account returns `Authenticated`, appends exactly one
success entry to the journal, establishes the session, and records the
origin address as the profile's last-known login IP. -/
theorem claim_C8_nopin (st : AuthState) (now : Nat) (email password ip : String)
    (user : UserRec) (p : Profile)
    (hauth : authenticate st.users email password = some user)
    (hactive : user.isActive = true)
    (hnolock : check_login_attempts st.settings st.history now user.id = false)
    (hprof : findProfile st.profiles user.id = some p)
    (hpin : pinTruthy p.pin = false) :
    login_view st now email password ip =
      (LoginOutcome.authenticated,
       { st with history := log_login_attempt st.history (some user.id) now ip true none,
                 session := SessionState.authenticated user.id,
                 profiles := setLastLoginIp st.profiles user.id ip })
    ∧ findProfile (setLastLoginIp st.profiles user.id ip) user.id
        = some { p with lastLoginIp := some ip } := by
  constructor
  · unfold login_view
    rw [hauth]
    simp [hactive, hnolock, hprof, hpin]
  · rw [findProfile_setLastLoginIp, hprof]
    rfl

/-- C8 witness: concrete pinless login authenticating in one step and
stamping the origin address on the profile. -/
theorem claim_C8_witness :
    (login_view (baseState [] [demoProfileNoPin]) 5 "u" "pw" "ip").1
      = LoginOutcome.authenticated
    ∧ findProfile (setLastLoginIp [demoProfileNoPin] 1 "ip") 1
        = some { demoProfileNoPin with lastLoginIp := some "ip" } := by
  have h := claim_C8_nopin (baseState [] [demoProfileNoPin]) 5 "u" "pw" "ip"
    demoUser demoProfileNoPin (by decide) rfl (by decide) (by decide) rfl
  exact ⟨by rw [h.1], h.2⟩

/-- C9: a security-settings submission with two-factor enabled and a
session timeout below 15 minutes is rejected by the form validation, so
the stored row is untouched; the stored-policy invariant (two-factor
implies timeout of at least 15 minutes) is preserved by every submission
and holds of the row created with the column defaults. -/
theorem claim_C9_policy (current : SecuritySettingsRec) (s : SecuritySettingsSubmission)
    (uid : Nat) :
    (s.twoFactorEnabled = true → s.sessionTimeout < 15 →
       securitySettingsFormValid s = false ∧ security_settings_view current s = current)
    ∧ (policyInvariant current → policyInvariant (security_settings_view current s))
    ∧ policyInvariant (defaultSecuritySettings uid) := by
  refine ⟨?_, ?_, ?_⟩
  · intro htf hlt
    have hval : securitySettingsFormValid s = false := by
      unfold securitySettingsFormValid
      rw [htf]
      simp [hlt]
    exact ⟨hval, by unfold security_settings_view; rw [hval]; simp⟩
  · intro hinv
    unfold security_settings_view
    by_cases hval : securitySettingsFormValid s = true
    · rw [if_pos hval]
      unfold policyInvariant
      intro htf'
      dsimp only at htf'
      have hnlt : ¬ (s.sessionTimeout < 15) := by
        intro hlt
        have hfalse : securitySettingsFormValid s = false := by
          unfold securitySettingsFormValid
          rw [htf']
          simp [hlt]
        rw [hval] at hfalse
        exact absurd hfalse (by decide)
      show (15 : Int) ≤ s.sessionTimeout
      omega
    · rw [if_neg hval]
      exact hinv
  · intro h
    simp [defaultSecuritySettings] at h

/-- C9 witness: the spec's concrete scenario — two-factor on with a
10-minute timeout is rejected and leaves the stored defaults in place. -/
theorem claim_C9_witness :
    securitySettingsFormValid
        { twoFactorEnabled := true, loginNotifications := true,
          sessionTimeout := 10, maxLoginAttempts := 5 } = false
    ∧ security_settings_view (defaultSecuritySettings 1)
        { twoFactorEnabled := true, loginNotifications := true,
          sessionTimeout := 10, maxLoginAttempts := 5 }
        = defaultSecuritySettings 1 := by
  have h := (claim_C9_policy (defaultSecuritySettings 1)
    { twoFactorEnabled := true, loginNotifications := true,
      sessionTimeout := 10, maxLoginAttempts := 5 } 1).1 rfl (by decide)
  exact ⟨h.1, h.2⟩

/-- C10 (amended): a lockout rejection journals one failure entry that
counts toward the 30-minute window; when `max_login_attempts = 1` this
keeps the account locked through any chain of attempts made less than
30 minutes apart (each rejection re-arms the single required failure);
for larger thresholds a lone rejection does not sustain the count, so
the lock can end even while attempts keep arriving (see the
counterexample). -/
theorem claim_C10_amended (st : AuthState) (now : Nat) (email password ip : String)
    (user : UserRec)
    (hauth : authenticate st.users email password = some user)
    (hactive : user.isActive = true)
    (hlock : check_login_attempts st.settings st.history now user.id = true) :
    login_view st now email password ip =
      (LoginOutcome.tooManyAttempts,
       { st with history := log_login_attempt st.history (some user.id) now ip false
                   (some "Too many failed attempts") })
    ∧ (∀ now2, now2 - 30 ≤ now →
        1 ≤ countRecentFailures
              (log_login_attempt st.history (some user.id) now ip false
                (some "Too many failed attempts")) now2 user.id)
    ∧ ((get_security_settings st.settings user.id).maxLoginAttempts = 1 →
       ∀ now2, now2 - 30 ≤ now →
        (login_view
          { st with history := log_login_attempt st.history (some user.id) now ip false
                      (some "Too many failed attempts") }
          now2 email password ip).1 = LoginOutcome.tooManyAttempts) := by
  have hone : ∀ now2, now2 - 30 ≤ now →
      1 ≤ countRecentFailures
            (log_login_attempt st.history (some user.id) now ip false
              (some "Too many failed attempts")) now2 user.id := by
    intro now2 hwin
    unfold countRecentFailures log_login_attempt
    rw [List.filter_cons_of_pos (by exact decide_eq_true ⟨rfl, rfl, hwin⟩)]
    simp
  refine ⟨?_, hone, ?_⟩
  · unfold login_view
    rw [hauth]
    simp [hactive, hlock]
  · intro hmax now2 hwin
    have hlock2 : check_login_attempts st.settings
        (log_login_attempt st.history (some user.id) now ip false
          (some "Too many failed attempts")) now2 user.id = true := by
      unfold check_login_attempts
      rw [hmax]
      exact decide_eq_true (hone now2 hwin)
    unfold login_view
    dsimp only
    rw [hauth]
    simp [hactive, hlock2]

/-- C10 witness: with threshold 1, a lockout at minute 10 keeps the next
attempt at minute 20 locked as well. -/
theorem claim_C10_witness :
    (login_view lockState 10 "u" "pw" "ip").1 = LoginOutcome.tooManyAttempts
    ∧ (login_view (login_view lockState 10 "u" "pw" "ip").2 20 "u" "pw" "ip").1
        = LoginOutcome.tooManyAttempts := by
  have h := claim_C10_amended lockState 10 "u" "pw" "ip" demoUser (by decide) rfl
    (by decide)
  constructor
  · rw [h.1]
  · rw [h.1]
    exact h.2.2 (by decide) 20 (by decide)

end IMS
